/-
Shallow embedding of the aiap-content-scraper extraction and analysis
pipeline.

The repository ships two parallel implementations of the pipeline:
  * a Firecrawl-based client (regex extraction over raw HTML, a fetch-based
    link prober, and a local issue analyzer) -- this is the client the
    scrape route imports, so its functions are "the" extractor, prober and
    analyzer of the running application;
  * a Puppeteer-based client (DOM extraction inside the browser page, a
    page.goto link prober, and a slightly different issue analyzer).
Both are embedded here (prefix `fc` / plain names for the Firecrawl client,
prefix `pp` for the Puppeteer client) together with the heuristic content
analyzer (readability, keyword, sentiment and suggestion functions).

JavaScript strings are modelled as Lean `String`, numbers as `Nat`/`Int`
with exact rationals (`ℚ`) where the source computes float arithmetic; the
float NaN produced by a 0/0 division is modelled by `Option ℚ` with `none`
for NaN.  Loops over strings are embedded as fuel-indexed structural
recursions with fuel equal to the input length; every loop consumes at
least one character per step, so the fuel never runs out on the inputs the
functions are applied to.
-/
import Mathlib

namespace Scraper

/-- JS `\s` character class for string trimming/splitting. -/
def isWs (c : Char) : Bool := c.isWhitespace

/-- JS `String.prototype.trim`. -/
def jsTrim (cs : List Char) : List Char :=
  ((cs.dropWhile isWs).reverse.dropWhile isWs).reverse

/-- `trim` on Lean strings. -/
def trimS (s : String) : String := ⟨jsTrim s.data⟩

/-- JS `String.prototype.toLowerCase` (ASCII fragment). -/
def toLowerS (s : String) : String := ⟨s.data.map Char.toLower⟩

/-- A heading entry of the scraped document: `{tag, text, level}`. -/
structure Heading where
  tag : String
  text : String
  level : Nat
deriving Repr, DecidableEq

/-- A link entry of the document after the broken-link pass:
`{href, text, isBroken}` (the route adds `isBroken` before analysis). -/
structure Link where
  href : String
  text : String
  isBroken : Bool
deriving Repr, DecidableEq

/-- A link as produced by the extractor, before the broken-link pass. -/
structure LinkHT where
  href : String
  text : String
deriving Repr, DecidableEq

/-- The normalized document handed to the analyzers (`ScrapedData`). -/
structure ScrapedData where
  url : String
  title : Option String
  headings : List Heading
  links : List Link
  screenshot : Option String
deriving Repr, DecidableEq

/-- An issue produced by `analyzeWebsiteIssues`. -/
structure Issue where
  type : String
  description : String
  severity : String
  element : Option String
deriving Repr, DecidableEq

/-- JS `!title || title.trim() === ''` on the nullable title. -/
def titleBlank : Option String → Bool
  | none => true
  | some t => t == "" || trimS t == ""

/-- Number of `level == 1` headings. -/
def h1Count (hs : List Heading) : Nat := hs.countP (fun h => h.level == 1)

/-- The heading-hierarchy loop: some adjacent pair of levels skips a level
going deeper (`levels[i] > levels[i-1] + 1`). -/
def hasLevelSkip : List Nat → Bool
  | a :: b :: rest => decide (a + 1 < b) || hasLevelSkip (b :: rest)
  | _ => false

/-- Headings whose trimmed text is empty. -/
def emptyHeadingCount (hs : List Heading) : Nat :=
  hs.countP (fun h => trimS h.text == "")

/-- Links with falsy or blank-trimming text (`!link.text || link.text.trim() === ''`). -/
def emptyLinkCount (ls : List Link) : Nat :=
  ls.countP (fun l => l.text == "" || trimS l.text == "")

/-- The non-descriptive phrase list of the regex
`/^(click here|here|read more|more|link)$/i`. -/
def nonDescriptivePhrases : List String :=
  ["click here", "here", "read more", "more", "link"]

/-- Case-insensitive exact match of the trimmed text against the phrase list. -/
def isNonDescriptive (t : String) : Bool :=
  nonDescriptivePhrases.contains (toLowerS (trimS t))

/-- Links matching the non-descriptive phrase regex. -/
def nonDescriptiveCount (ls : List Link) : Nat :=
  ls.countP (fun l => isNonDescriptive l.text)

/-- `analyzeWebsiteIssues` of the Firecrawl client (the implementation the
scrape route imports): Missing/Short/Long Title, Missing H1, Multiple H1s,
Heading Hierarchy, Empty Headings, Empty Links, Non-descriptive Links.
It has no broken-link and no zero-headings rule. -/
def fcAnalyzeWebsiteIssues (d : ScrapedData) : List Issue :=
  (if titleBlank d.title then
    [{ type := "Missing Title",
       description := "The page is missing a title which is important for SEO and accessibility.",
       severity := "high", element := none }] else [])
  ++ (match d.title with
      | some t =>
        if t != "" && t.length < 10 then
          [{ type := "Short Title",
             description := "The page title is too short. Consider making it more descriptive.",
             severity := "medium", element := some t }] else []
      | none => [])
  ++ (match d.title with
      | some t =>
        if t != "" && 60 < t.length then
          [{ type := "Long Title",
             description := "The page title is too long and may be truncated in search results.",
             severity := "medium", element := some t }] else []
      | none => [])
  ++ (if h1Count d.headings == 0 then
    [{ type := "Missing H1",
       description := "The page is missing an H1 heading which is important for SEO.",
       severity := "high", element := none }] else [])
  ++ (if 1 < h1Count d.headings then
    [{ type := "Multiple H1s",
       description := "The page has multiple H1 headings. Consider using only one H1 per page.",
       severity := "medium", element := none }] else [])
  ++ (if hasLevelSkip (d.headings.map Heading.level) then
    [{ type := "Heading Hierarchy",
       description := "Heading levels should not skip levels (e.g., H1 directly to H3).",
       severity := "medium", element := none }] else [])
  ++ (if 0 < emptyHeadingCount d.headings then
    [{ type := "Empty Headings",
       description := "Found " ++ toString (emptyHeadingCount d.headings) ++ " empty heading(s). All headings should have descriptive text.",
       severity := "medium", element := none }] else [])
  ++ (if 0 < emptyLinkCount d.links then
    [{ type := "Empty Links",
       description := "Found " ++ toString (emptyLinkCount d.links) ++ " link(s) without descriptive text.",
       severity := "medium", element := none }] else [])
  ++ (if 0 < nonDescriptiveCount d.links then
    [{ type := "Non-descriptive Links",
       description := "Found " ++ toString (nonDescriptiveCount d.links) ++ " link(s) with non-descriptive text like \"click here\".",
       severity := "low", element := none }] else [])

/-- `analyzeWebsiteIssues` of the Puppeteer client: Missing/Short Title,
No Headings, Missing H1, Multiple H1 Headings, Broken Links, Empty Link Text. -/
def ppAnalyzeWebsiteIssues (d : ScrapedData) : List Issue :=
  (if titleBlank d.title then
    [{ type := "Missing Title",
       description := "The page is missing a title which is important for SEO and accessibility.",
       severity := "high", element := none }] else [])
  ++ (match d.title with
      | some t =>
        if t != "" && t.length < 10 then
          [{ type := "Short Title",
             description := "The page title is very short. Consider using a more descriptive title.",
             severity := "medium", element := some ("<title>" ++ t ++ "</title>") }] else []
      | none => [])
  ++ (if d.headings.isEmpty then
    [{ type := "No Headings",
       description := "The page has no headings which makes it difficult to understand the content structure.",
       severity := "medium", element := none }] else [])
  ++ (if !d.headings.any (fun h => h.level == 1) then
    [{ type := "Missing H1",
       description := "The page is missing an H1 heading which is important for SEO and content hierarchy.",
       severity := "medium", element := none }] else [])
  ++ (if 1 < h1Count d.headings then
    [{ type := "Multiple H1 Headings",
       description := "The page has " ++ toString (h1Count d.headings) ++ " H1 headings. It\'s best practice to have only one main H1 heading.",
       severity := "low", element := none }] else [])
  ++ (match d.links.filter (fun l => l.isBroken) with
      | [] => []
      | b :: bs =>
        [{ type := "Broken Links",
           description := "The page contains " ++ toString (b :: bs).length ++ " broken links that should be fixed.",
           severity := "high",
           element := some ("<a href=\"" ++ b.href ++ "\">" ++ b.text ++ "</a>") }])
  ++ (match d.links.filter (fun l => l.text == "" || trimS l.text == "") with
      | [] => []
      | e :: es =>
        [{ type := "Empty Link Text",
           description := "The page contains " ++ toString (e :: es).length ++ " links with no text which is bad for accessibility.",
           severity := "medium",
           element := some ("<a href=\"" ++ e.href ++ "\"></a>") }])

/-! ### The Firecrawl extractor: regex scanning over raw HTML

`extractHeadings` embeds the loop over `/<(h[1-6])[^>]*>(.*?)<\/\1>/gi`,
`extractLinks` the loop over
`/<a[^>]*href=["']([^"']*)["'][^>]*>(.*?)<\/a>/gi`; tag stripping embeds
`.replace(/<[^>]*>/g, '')`.  The regex dot does not match a newline, lazy
groups take the shortest completion, and the greedy `[^>]*` before `href=`
prefers the last `href=` occurrence inside the tag that lets the rest of
the pattern match. -/

/-- Skip `[^>]*>`: drop characters through the first `>`; `none` when the
input has no `>` (the regex fails and the scan moves on). -/
def dropTag : List Char → Option (List Char)
  | [] => none
  | '>' :: r => some r
  | _ :: r => dropTag r

/-- One step of `.replace(/<[^>]*>/g, '')`: fuel-indexed scan dropping each
`<...>` region; a `<` with no later `>` matches nothing and is kept. -/
def stripTagsAux : Nat → List Char → List Char
  | 0, cs => cs
  | _, [] => []
  | fuel + 1, c :: rest =>
    if c = '<' then
      match dropTag rest with
      | some r => stripTagsAux fuel r
      | none => c :: rest
    else c :: stripTagsAux fuel rest

/-- `.replace(/<[^>]*>/g, '')` on a character list. -/
def stripTags (cs : List Char) : List Char := stripTagsAux cs.length cs

/-- Case-insensitive letter test. -/
def isCharCI (base : Char) (c : Char) : Bool := c = base || c = base.toUpper

/-- Does `cs` start with the closing tag `</h𝑑>` (case-insensitive `h`)?
Returns the rest after the closing tag. -/
def isCloseH (d : Char) (cs : List Char) : Option (List Char) :=
  match cs with
  | '<' :: '/' :: h :: e :: '>' :: r =>
    if isCharCI 'h' h && e = d then some r else none
  | _ => none

/-- The lazy group `(.*?)` before `</h𝑑>`: the shortest prefix (with no
newline, since `.` does not match one) followed by the closing tag.
Returns (inner text, rest after the closing tag). -/
def findCloseH (d : Char) : List Char → Option (List Char × List Char)
  | [] => none
  | c :: rest =>
    match isCloseH d (c :: rest) with
    | some r => some ([], r)
    | none =>
      if c = '\n' then none
      else
        match findCloseH d rest with
        | some (inner, r) => some (c :: inner, r)
        | none => none

/-- Try the heading regex at the current position: `<h𝑑` (case-insensitive,
`𝑑` in 1..6), then `[^>]*>`, then the lazy inner text and `</h𝑑>`.
Returns (digit, inner text, rest after the match). -/
def tryHeadingAt : List Char → Option (Char × List Char × List Char)
  | '<' :: h :: d :: rest =>
    if isCharCI 'h' h && '1' ≤ d && d ≤ '6' then
      match dropTag rest with
      | some r1 =>
        match findCloseH d r1 with
        | some (inner, r2) => some (d, inner, r2)
        | none => none
      | none => none
    else none
  | _ => none

/-- The `exec` loop of the heading regex: repeat from the end of each match,
else advance one character.  Fuel-indexed; every step consumes at least one
character, so fuel = input length suffices. -/
def scanHeadings : Nat → List Char → List (Char × List Char)
  | 0, _ => []
  | _, [] => []
  | fuel + 1, c :: rest =>
    match tryHeadingAt (c :: rest) with
    | some (d, inner, r2) => (d, inner) :: scanHeadings fuel r2
    | none => scanHeadings fuel rest

/-- Numeric value of a digit character (`parseInt` on the tag numeral). -/
def digitVal (d : Char) : Nat := d.toNat - '0'.toNat

/-- `extractHeadings` of the Firecrawl client: for each regex match, strip
inner tags and trim; push `{tag, text, level}` only when the trimmed text
is non-empty (`if (text)`). -/
def extractHeadings (html : String) : List Heading :=
  (scanHeadings html.data.length html.data).filterMap fun p =>
    let text := jsTrim (stripTags p.2)
    if text.isEmpty then none
    else some { tag := ⟨['h', p.1]⟩, text := ⟨text⟩, level := digitVal p.1 }

/-- Quote characters admitted by `["']`. -/
def isQuote (c : Char) : Bool := c = '"' || c = '\''

/-- Does `cs` start with `href=` (case-insensitive)?  Returns the rest. -/
def isHrefEq : List Char → Option (List Char)
  | h :: r :: e :: f :: '=' :: rest =>
    if isCharCI 'h' h && isCharCI 'r' r && isCharCI 'e' e && isCharCI 'f' f
    then some rest else none
  | _ => none

/-- The capture `([^"'])*` up to the first closing quote: (captured text,
rest after the quote); `none` when no quote follows. -/
def takeToQuote : List Char → Option (List Char × List Char)
  | [] => none
  | c :: r =>
    if isQuote c then some ([], r)
    else
      match takeToQuote r with
      | some (cap, rest) => some (c :: cap, rest)
      | none => none

/-- Does `cs` start with `</a>` (case-insensitive)?  Returns the rest. -/
def isCloseA (cs : List Char) : Option (List Char) :=
  match cs with
  | '<' :: '/' :: a :: '>' :: r => if isCharCI 'a' a then some r else none
  | _ => none

/-- The lazy group `(.*?)` before `</a>`, newline-blocked like `findCloseH`. -/
def findCloseA : List Char → Option (List Char × List Char)
  | [] => none
  | c :: rest =>
    match isCloseA (c :: rest) with
    | some r => some ([], r)
    | none =>
      if c = '\n' then none
      else
        match findCloseA rest with
        | some (inner, r) => some (c :: inner, r)
        | none => none

/-- `href=` occurrences inside the `>`-free span after `<a` (the region the
greedy `[^>]*` can reach): the rests after each `href=`. -/
def hrefCandidates : List Char → List (List Char)
  | [] => []
  | c :: rest =>
    if c = '>' then []
    else
      match isHrefEq (c :: rest) with
      | some afterEq => afterEq :: hrefCandidates rest
      | none => hrefCandidates rest

/-- Complete the link regex after `href=`: an opening quote, the quoted
capture, `[^>]*>`, then the lazy anchor text and `</a>`.
Returns (href, inner text, rest after the match). -/
def tryFromCandidate (afterEq : List Char) : Option (List Char × List Char × List Char) :=
  match afterEq with
  | [] => none
  | q :: rest =>
    if isQuote q then
      match takeToQuote rest with
      | some (href, r1) =>
        match dropTag r1 with
        | some r2 =>
          match findCloseA r2 with
          | some (inner, r3) => some (href, inner, r3)
          | none => none
        | none => none
      | none => none
    else none

/-- First candidate (in the given order) for which the rest of the pattern
matches; the greedy `[^>]*` is modelled by trying candidates last-first. -/
def firstHit : List (List Char) → Option (List Char × List Char × List Char)
  | [] => none
  | c :: cs =>
    match tryFromCandidate c with
    | some r => some r
    | none => firstHit cs

/-- Try the link regex at the current position: `<a` (case-insensitive),
then the backtracking search for `href=["']...`. -/
def tryLinkAt : List Char → Option (List Char × List Char × List Char)
  | '<' :: a :: rest =>
    if isCharCI 'a' a then firstHit (hrefCandidates rest).reverse else none
  | _ => none

/-- The `exec` loop of the link regex (fuel-indexed like `scanHeadings`). -/
def scanLinks : Nat → List Char → List (List Char × List Char)
  | 0, _ => []
  | _, [] => []
  | fuel + 1, c :: rest =>
    match tryLinkAt (c :: rest) with
    | some (href, inner, r) => (href, inner) :: scanLinks fuel r
    | none => scanLinks fuel rest

/-- The parts of `new URL(baseUrl)` the extractor reads: `protocol`
(with the trailing colon), `host` (with any port) and `pathname`. -/
structure UrlParts where
  protocol : String
  host : String
  pathname : String
deriving Repr, DecidableEq

/-- Split at the first `://`: (scheme characters, rest). -/
def findSchemeSplit : List Char → Option (List Char × List Char)
  | [] => none
  | ':' :: '/' :: '/' :: r => some ([], r)
  | c :: r =>
    match findSchemeSplit r with
    | some (a, b) => some (c :: a, b)
    | none => none

/-- `new URL` on the well-formed absolute `scheme://...` URLs the route
validates; `none` models the constructor throwing. -/
def parseUrl (s : String) : Option UrlParts :=
  match findSchemeSplit s.data with
  | none => none
  | some (scheme, rest) =>
    if scheme.isEmpty then none
    else
      let host := rest.takeWhile fun c => c ≠ '/' && c ≠ '?' && c ≠ '#'
      let after := rest.drop host.length
      let path :=
        match after with
        | '/' :: _ => after.takeWhile fun c => c ≠ '?' && c ≠ '#'
        | _ => ['/']
      some { protocol := ⟨scheme ++ [':']⟩, host := ⟨host⟩, pathname := ⟨path⟩ }

/-- The relative-URL resolution of `extractLinks`: `/...` becomes
`protocol//host` + href, `./...` becomes `protocol//host` + pathname +
the href without its `./`; everything else is kept verbatim.  `none`
models `new URL(baseUrl)` throwing on an unparsable base. -/
def resolveHref (base : String) (href : List Char) : Option (List Char) :=
  match href with
  | '/' :: _ =>
    (parseUrl base).map fun u => u.protocol.data ++ ['/', '/'] ++ u.host.data ++ href
  | '.' :: '/' :: rest =>
    (parseUrl base).map fun u =>
      u.protocol.data ++ ['/', '/'] ++ u.host.data ++ u.pathname.data ++ rest
  | _ => some href

/-- JS `href.startsWith('http')` (case-sensitive). -/
def startsWithHttp : List Char → Bool
  | 'h' :: 't' :: 't' :: 'p' :: _ => true
  | _ => false

/-- The spec's notion for C5: an absolute URL with an `http` or `https`
scheme, stated as starting with `http://` or `https://`.  This is the
claim-side predicate the extractor's output is compared against. -/
def isHttpAbsolute (s : String) : Bool :=
  "http://".data.isPrefixOf s.data || "https://".data.isPrefixOf s.data

/-- The processing loop of `extractLinks` over the regex matches: resolve,
then keep the link only when the resolved href starts with `http` and the
trimmed stripped anchor text is non-empty. -/
def buildLinks (base : String) : List (List Char × List Char) → Option (List LinkHT)
  | [] => some []
  | (href, inner) :: rest =>
    match resolveHref base href with
    | none => none
    | some resolved =>
      match buildLinks base rest with
      | none => none
      | some tail =>
        if startsWithHttp resolved && !(jsTrim (stripTags inner)).isEmpty then
          some ({ href := ⟨resolved⟩, text := ⟨jsTrim (stripTags inner)⟩ } :: tail)
        else some tail

/-- `extractLinks` of the Firecrawl client. -/
def extractLinks (html : String) (baseUrl : String) : Option (List LinkHT) :=
  buildLinks baseUrl (scanLinks html.data.length html.data)

/-! ### The Puppeteer extraction path

Inside `scrapeWebsite` of the Puppeteer client, `page.evaluate` maps over
the DOM query results; the query itself is the browser's, so the embedding
takes the queried element lists as input. -/

/-- A DOM element returned by `querySelectorAll('h1, h2, h3, h4, h5, h6')`:
its `tagName` and nullable `textContent`. -/
structure DomHeading where
  tagName : String
  textContent : Option String
deriving Repr, DecidableEq

/-- A DOM anchor returned by `querySelectorAll('a')`: its (already
browser-absolutized) `href` and nullable `textContent`. -/
structure DomAnchor where
  href : String
  textContent : Option String
deriving Repr, DecidableEq

/-- `parseInt(tag.replace('h', ''), 10)` on a lowercased heading tag name. -/
def jsLevelOf (tag : String) : Nat :=
  match tag.data with
  | 'h' :: d :: _ => digitVal d
  | _ => 0

/-- The mapping the Puppeteer client applies to one queried heading element:
`{tag, text: el.textContent?.trim() || '', level}`. -/
def ppHeadingOf (el : DomHeading) : Heading :=
  let tag := toLowerS el.tagName
  { tag := tag
    text := match el.textContent with | none => "" | some t => trimS t
    level := jsLevelOf tag }

/-- Heading extraction of the Puppeteer client: every queried element is
mapped, with no filtering (empty-trimmed text is kept as `""`). -/
def ppExtractHeadings (els : List DomHeading) : List Heading :=
  els.map ppHeadingOf

/-- `el.textContent?.trim() || el.href`: the trimmed anchor text, falling
back to the href when it is missing or trims to the empty string (a
missing `textContent` trims to `""` through `getD`). -/
def ppLinkText (el : DomAnchor) : String :=
  if trimS (el.textContent.getD "") = "" then el.href
  else trimS (el.textContent.getD "")

/-- Link extraction of the Puppeteer client: keep anchors with a truthy
`href` starting with `http`, emitting `{href, text}` with the fallback. -/
def ppExtractLinks (els : List DomAnchor) : List LinkHT :=
  (els.filter fun el => el.href != "" && startsWithHttp el.href.data).map
    fun el => { href := el.href, text := ppLinkText el }

/-! ### The link prober (`checkBrokenLinks` of the Firecrawl client)

The per-link `fetch(url, {method:'HEAD'})` outcome is an input of the
embedding: either a response with a status, or a thrown failure
(timeout / DNS / TLS).  `response.ok` is status 200..299. -/

/-- The outcome of fetching one URL. -/
inductive FetchOutcome where
  | resp (status : Nat)
  | failed
deriving Repr, DecidableEq

/-- JS `Response.ok`: status in the inclusive range 200..299. -/
def jsOk (s : Nat) : Bool := 200 ≤ s && s ≤ 299

/-- The body of one batch promise: `{url, isBroken: !response.ok}`, and
`{url, isBroken: true}` when the fetch throws. -/
def probeOne (env : String → FetchOutcome) (url : String) : String × Bool :=
  match env url with
  | .resp s => (url, !jsOk s)
  | .failed => (url, true)

/-- The batch loop of `checkBrokenLinks`: slices of `batchSize = 10`,
each batch fully probed and appended before the next batch starts.
Fuel-indexed; each step consumes at least one link. -/
def checkBrokenLinksAux (env : String → FetchOutcome) : Nat → List String → List (String × Bool)
  | 0, _ => []
  | _, [] => []
  | fuel + 1, l :: rest =>
    ((l :: rest).take 10).map (probeOne env)
      ++ checkBrokenLinksAux env fuel ((l :: rest).drop 10)

/-- `checkBrokenLinks` of the Firecrawl client. -/
def checkBrokenLinks (env : String → FetchOutcome) (links : List String) : List (String × Bool) :=
  checkBrokenLinksAux env links.length links

/-! ### The heuristic content analyzer (`content-analyzer.ts`) -/

/-- JS `split` on a one-character-class regex followed by
`.filter(Boolean)`: the maximal non-separator chunks, empties dropped.
Fuel-indexed; each step consumes at least one character. -/
def chunksAux (p : Char → Bool) : Nat → List Char → List (List Char)
  | 0, _ => []
  | _, [] => []
  | fuel + 1, c :: rest =>
    if p c then chunksAux p fuel rest
    else ((c :: rest).takeWhile fun x => !p x)
      :: chunksAux p fuel ((c :: rest).dropWhile fun x => !p x)

/-- The non-empty chunks of `s` between runs of separators. -/
def chunks (p : Char → Bool) (s : String) : List String :=
  (chunksAux p s.data.length s.data).map fun l => ⟨l⟩

/-- Sentence separators of `text.split(/[.!?]+/)`. -/
def isSentSep (c : Char) : Bool := c = '.' || c = '!' || c = '?'

/-- `text.split(/\s+/).filter(Boolean)` -- the word list of the
readability score. -/
def wordsOf (text : String) : List String := chunks isWs text

/-- `text.split(/[.!?]+/).filter(Boolean)` -- the sentence list. -/
def sentencesOf (text : String) : List String := chunks isSentSep text

/-- `calculateReadabilityScore`: 50 with no sentences, otherwise
`clamp(60 + 2*avgWordsPerSentence + longWordPercentage/2, 0, 100)`.
When the text has a sentence chunk but no words (a whitespace-only text),
the JS `longWords / words.length` is `0/0 = NaN` and the whole score is
NaN, modelled by `none`. -/
def calculateReadabilityScore (text : String) : Option ℚ :=
  let words := wordsOf text
  let sentences := sentencesOf text
  if sentences.isEmpty then some 50
  else if words.isEmpty then none
  else
    let avgWordsPerSentence : ℚ := (words.length : ℚ) / (sentences.length : ℚ)
    let longWords : ℚ := (words.countP fun w => 6 < w.length : ℕ)
    let longWordPercentage : ℚ := longWords / (words.length : ℚ) * 100
    let score : ℚ := 60 + avgWordsPerSentence * 2 + longWordPercentage / 2
    some (max 0 (min 100 score))

/-- `getReadabilityLevel` on a numeric score. -/
def getReadabilityLevel (score : ℚ) : String :=
  if score < 40 then "Easy" else if score < 70 then "Medium" else "Hard"

/-- `getReadabilityLevel` applied to a possibly-NaN score: both JS
comparisons `NaN < 40` and `NaN < 70` are false, so NaN maps to Hard. -/
def readabilityLevelOf : Option ℚ → String
  | none => "Hard"
  | some q => getReadabilityLevel q

/-- The fixed positive word list of `calculateSentiment`. -/
def positiveWords : List String :=
  ["good", "great", "best", "excellent", "amazing", "wonderful",
   "fantastic", "love", "like", "enjoy", "happy", "pleased", "satisfied",
   "perfect", "outstanding", "brilliant", "awesome", "incredible", "superb"]

/-- The fixed negative word list of `calculateSentiment`. -/
def negativeWords : List String :=
  ["bad", "terrible", "awful", "horrible", "worst", "hate", "dislike",
   "angry", "frustrated", "disappointed", "sad", "poor", "failed",
   "broken", "wrong", "error", "problem", "issue", "difficult"]

/-- The word list of `calculateSentiment`:
`text.toLowerCase().split(/\s+/)`.  The JS split can add empty boundary
chunks for leading/trailing whitespace; the empty string is in neither
word list, so the counters are unaffected and the non-empty chunks
suffice. -/
def sentimentWords (text : String) : List String := chunks isWs (toLowerS text)

/-- The `forEach` counter loop of `calculateSentiment`. -/
def sentimentCounts (ws : List String) : Nat × Nat :=
  ws.foldl
    (fun pn w =>
      (if positiveWords.contains w then pn.1 + 1 else pn.1,
       if negativeWords.contains w then pn.2 + 1 else pn.2))
    (0, 0)

/-- `calculateSentiment`: `(positive − negative) / (positive + negative)`,
`0` when no sentiment word occurs. -/
def calculateSentiment (text : String) : ℚ :=
  let pn := sentimentCounts (sentimentWords text)
  if pn.1 + pn.2 = 0 then 0
  else ((pn.1 : ℚ) - (pn.2 : ℚ)) / ((pn.1 : ℚ) + (pn.2 : ℚ))

/-- `getSentimentAnalysis`: the threshold ladder over the score. -/
def getSentimentAnalysis (score : ℚ) : String :=
  if (0.3 : ℚ) < score then "Very Positive"
  else if (0.1 : ℚ) < score then "Positive"
  else if (-0.1 : ℚ) < score then "Neutral"
  else if (-0.3 : ℚ) < score then "Negative"
  else "Very Negative"

/-- JS falsy check on the nullable screenshot (`!data.screenshot`). -/
def screenshotFalsy : Option String → Bool
  | none => true
  | some s => s == ""

/-- Total heading text length (`reduce((acc, h) => acc + h.text.length, 0)`). -/
def totalHeadingTextLength (hs : List Heading) : Nat :=
  hs.foldl (fun acc h => acc + h.text.length) 0

/-- The `suggestions` accumulator of `generateSuggestions` before the
generic-default check: the structural rules (H1 count, link review,
content length, screenshot). -/
def structuralSuggestions (d : ScrapedData) : List String :=
  (if h1Count d.headings == 0 then
    ["Add an H1 heading to improve SEO and content structure"]
  else if 1 < h1Count d.headings then
    ["Consider using only one H1 heading per page for better SEO"]
  else [])
  ++ (if !d.links.isEmpty then
    ["Review all links to ensure they are working properly"] else [])
  ++ (if totalHeadingTextLength d.headings < 300 then
    ["Consider adding more content to improve SEO and provide better value to users"] else [])
  ++ (if screenshotFalsy d.screenshot then
    ["Add visual elements or images to make the content more engaging"] else [])

/-- `generateSuggestions`: the structural checks, then a fixed generic set
when none applied. -/
def generateSuggestions (d : ScrapedData) : List String :=
  if (structuralSuggestions d).isEmpty then
    ["Content structure looks good - consider adding more interactive elements",
     "Optimize images for better loading performance",
     "Add internal links to improve navigation"]
  else structuralSuggestions d

/-- Number of positive-list hits among the sentiment words of `text`. -/
def positiveHits (text : String) : Nat :=
  (sentimentWords text).countP fun w => positiveWords.contains w

/-- Number of negative-list hits among the sentiment words of `text`. -/
def negativeHits (text : String) : Nat :=
  (sentimentWords text).countP fun w => negativeWords.contains w

/-! ### Helper lemmas -/

theorem countP_ite_nil (p : Issue → Bool) (c : Prop) [Decidable c] (l : List Issue) :
    (if c then l else []).countP p = if c then l.countP p else 0 := by
  split <;> rfl

theorem sentimentCounts_eq (ws : List String) :
    sentimentCounts ws =
      (ws.countP (fun w => positiveWords.contains w),
       ws.countP (fun w => negativeWords.contains w)) := by
  suffices h : ∀ pc nc,
      ws.foldl
        (fun pn w =>
          (if positiveWords.contains w then pn.1 + 1 else pn.1,
           if negativeWords.contains w then pn.2 + 1 else pn.2))
        (pc, nc)
      = (pc + ws.countP (fun w => positiveWords.contains w),
         nc + ws.countP (fun w => negativeWords.contains w)) by
    have h0 := h 0 0
    rw [sentimentCounts]
    simpa using h0
  induction ws with
  | nil => intro pc nc; simp
  | cons w ws ih =>
    intro pc nc
    simp only [List.foldl_cons, ih, List.countP_cons, Prod.mk.injEq]
    constructor <;> split <;> omega

theorem checkBrokenLinksAux_eq (env : String → FetchOutcome) :
    ∀ fuel links, links.length ≤ fuel →
      checkBrokenLinksAux env fuel links = links.map (probeOne env) := by
  intro fuel
  induction fuel with
  | zero =>
    intro links h
    rw [Nat.le_zero, List.length_eq_zero] at h
    subst h; rfl
  | succ fuel ih =>
    intro links h
    match links with
    | [] => rfl
    | l :: rest =>
      rw [checkBrokenLinksAux, ih ((l :: rest).drop 10) ?_]
      · rw [← List.map_append, List.take_append_drop]
      · simp only [List.length_drop, List.length_cons] at h ⊢
        omega

/-! ### C7: Missing H1 / Multiple H1s rules of the route's analyzer -/

/-- **C7.** For every Document with zero level-1 headings, the issue
analyzer of the Firecrawl client emits exactly one issue of type
`Missing H1`, and it has severity `high`; for every Document with more
than one level-1 heading it emits exactly one issue of type
`Multiple H1s`, and it has severity `medium` -- one issue per matching
rule, not one per offending element. -/
theorem C7_h1_rules (d : ScrapedData) :
    (h1Count d.headings = 0 →
      (fcAnalyzeWebsiteIssues d).countP (fun i => i.type == "Missing H1") = 1 ∧
      (fcAnalyzeWebsiteIssues d).countP
        (fun i => i.type == "Missing H1" && i.severity == "high") = 1) ∧
    (1 < h1Count d.headings →
      (fcAnalyzeWebsiteIssues d).countP (fun i => i.type == "Multiple H1s") = 1 ∧
      (fcAnalyzeWebsiteIssues d).countP
        (fun i => i.type == "Multiple H1s" && i.severity == "medium") = 1) := by
  constructor
  · intro h
    have h1 : (h1Count d.headings == 0) = true := by simpa using h
    have h2 : ¬ 1 < h1Count d.headings := by omega
    rcases ht : d.title with _ | t <;>
      simp [fcAnalyzeWebsiteIssues, ht, List.countP_append, countP_ite_nil,
        List.countP_cons, List.countP_nil, h1, h2]
  · intro h
    have h1 : (h1Count d.headings == 0) = false := by
      simp only [beq_eq_false_iff_ne, ne_eq]; omega
    rcases ht : d.title with _ | t <;>
      simp [fcAnalyzeWebsiteIssues, ht, List.countP_append, countP_ite_nil,
        List.countP_cons, List.countP_nil, h1, h]

/-- Witness for C7 at concrete documents: one without any H1 and one with
two H1 headings. -/
theorem C7_witness :
    (fcAnalyzeWebsiteIssues
      { url := "u", title := some "A good enough title", headings := [],
        links := [], screenshot := none }).countP
        (fun i => i.type == "Missing H1" && i.severity == "high") = 1 ∧
    (fcAnalyzeWebsiteIssues
      { url := "u", title := some "A good enough title",
        headings := [{ tag := "h1", text := "A", level := 1 },
                     { tag := "h1", text := "B", level := 1 }],
        links := [], screenshot := none }).countP
        (fun i => i.type == "Multiple H1s" && i.severity == "medium") = 1 :=
  ⟨((C7_h1_rules _).1 (by decide)).2, ((C7_h1_rules _).2 (by decide)).2⟩

/-! ### C9: the suggestion list is never empty -/

/-- **C9.** For every Document, `generateSuggestions` returns a non-empty
list: when no structural check applies, the fixed generic set is emitted. -/
theorem C9_suggestions_nonempty (d : ScrapedData) :
    0 < (generateSuggestions d).length := by
  rw [generateSuggestions]
  by_cases h : (structuralSuggestions d).isEmpty
  · simp [h]
  · rw [if_neg h]
    rw [Bool.not_eq_true, List.isEmpty_eq_false] at h
    exact List.length_pos.mpr h

/-! ### C8: the heuristic sentiment score and label -/

/-- **C8.** For every input text the heuristic sentiment score equals
`(positiveHits − negativeHits) / (positiveHits + negativeHits)` over the
fixed word lists, and `0` when both counts are zero; the label ladder is
`> 0.3` Very Positive, `> 0.1` Positive, `> -0.1` Neutral, `> -0.3`
Negative, else Very Negative; and a text with two positive-list words and
no negative-list word scores `1`, labelled Very Positive. -/
theorem C8_sentiment :
    (∀ text, calculateSentiment text =
      if positiveHits text + negativeHits text = 0 then 0
      else ((positiveHits text : ℚ) - (negativeHits text : ℚ)) /
        ((positiveHits text : ℚ) + (negativeHits text : ℚ))) ∧
    (∀ s : ℚ, ((0.3 : ℚ) < s → getSentimentAnalysis s = "Very Positive") ∧
      (s ≤ 0.3 → (0.1 : ℚ) < s → getSentimentAnalysis s = "Positive") ∧
      (s ≤ 0.1 → (-0.1 : ℚ) < s → getSentimentAnalysis s = "Neutral") ∧
      (s ≤ -0.1 → (-0.3 : ℚ) < s → getSentimentAnalysis s = "Negative") ∧
      (s ≤ -0.3 → getSentimentAnalysis s = "Very Negative")) ∧
    calculateSentiment "good great" = 1 ∧
    getSentimentAnalysis (calculateSentiment "good great") = "Very Positive" := by
  have hc : sentimentCounts (sentimentWords "good great") = (2, 0) := rfl
  have hs : calculateSentiment "good great" = 1 := by
    simp [calculateSentiment, hc]
  refine ⟨fun text => ?_, fun s => ?_, hs, ?_⟩
  · simp only [calculateSentiment, sentimentCounts_eq, positiveHits, negativeHits]
  · unfold getSentimentAnalysis
    refine ⟨fun h => ?_, fun h1 h2 => ?_, fun h1 h2 => ?_, fun h1 h2 => ?_,
      fun h => ?_⟩ <;>
      split_ifs <;> first | rfl | (exfalso; linarith)
  · rw [hs]
    norm_num [getSentimentAnalysis]

/-- Witness for C8: the label ladder discharged at a concrete score. -/
theorem C8_witness :
    calculateSentiment "good great" = 1 ∧
    getSentimentAnalysis 1 = "Very Positive" :=
  ⟨C8_sentiment.2.2.1, (C8_sentiment.2.1 1).1 (by norm_num)⟩

/-! ### C1: the Broken Links rule -/

/-- **C1, counterexample.** A Document with one broken link on which the
issue analyzer the scrape route uses (the Firecrawl client's
`analyzeWebsiteIssues`) emits no issue of type `Broken Links` at all --
the claimed rule exists only in the Puppeteer client's analyzer. -/
theorem C1_counterexample :
    0 < (ScrapedData.links
      { url := "https://site.example/", title := some "A reasonable title",
        headings := [{ tag := "h1", text := "Main", level := 1 }],
        links := [{ href := "https://x/broken", text := "go", isBroken := true }],
        screenshot := none }).countP (fun l => l.isBroken) ∧
    (fcAnalyzeWebsiteIssues
      { url := "https://site.example/", title := some "A reasonable title",
        headings := [{ tag := "h1", text := "Main", level := 1 }],
        links := [{ href := "https://x/broken", text := "go", isBroken := true }],
        screenshot := none }).countP (fun i => i.type == "Broken Links") = 0 := by
  exact ⟨by decide, by decide⟩

/-- **C1, amended.** The Broken Links rule lives in the Puppeteer client's
`analyzeWebsiteIssues`: for every Document with at least one link with
`isBroken = true`, that analyzer emits exactly one issue of type
`Broken Links`, with severity `high` and a description stating the count
of broken links; the Firecrawl analyzer the route uses emits none. -/
theorem C1_broken_links (d : ScrapedData)
    (h : 0 < d.links.countP (fun l => l.isBroken)) :
    (ppAnalyzeWebsiteIssues d).countP (fun i => i.type == "Broken Links") = 1 ∧
    (ppAnalyzeWebsiteIssues d).countP
      (fun i => i.type == "Broken Links" && i.severity == "high" &&
        i.description ==
          "The page contains " ++ toString (d.links.countP (fun l => l.isBroken))
            ++ " broken links that should be fixed.") = 1 := by
  rw [List.countP_eq_length_filter] at h
  rcases hb : d.links.filter (fun l => l.isBroken) with _ | ⟨b, bs⟩
  · rw [hb] at h; simp at h
  · have hlen : d.links.countP (fun l => l.isBroken) = (b :: bs).length := by
      rw [List.countP_eq_length_filter, hb]
    rcases ht : d.title with _ | t <;>
      simp [ppAnalyzeWebsiteIssues, ht, hb, hlen, List.countP_append,
        countP_ite_nil, List.countP_cons, List.countP_nil] <;>
      split <;> simp

/-- Witness for C1 at a Document with a single broken link. -/
theorem C1_witness :
    0 < (ScrapedData.links
      { url := "https://site.example/", title := some "A reasonable title",
        headings := [{ tag := "h1", text := "Main", level := 1 }],
        links := [{ href := "https://x/broken", text := "go", isBroken := true }],
        screenshot := none }).countP (fun l => l.isBroken) ∧
    (ppAnalyzeWebsiteIssues
      { url := "https://site.example/", title := some "A reasonable title",
        headings := [{ tag := "h1", text := "Main", level := 1 }],
        links := [{ href := "https://x/broken", text := "go", isBroken := true }],
        screenshot := none }).countP (fun i => i.type == "Broken Links") = 1 :=
  ⟨by decide, (C1_broken_links _ (by decide)).1⟩

/-! ### C2: analysis of an empty Document -/

/-- **C2, counterexample.** On the Document with no headings and no links,
the issue analyzer the scrape route uses (the Firecrawl client's) emits no
issue of type `No Headings`: that rule exists only in the Puppeteer
client's analyzer. -/
theorem C2_counterexample :
    (fcAnalyzeWebsiteIssues
      { url := "https://site.example/", title := none, headings := [],
        links := [], screenshot := none }).countP
      (fun i => i.type == "No Headings") = 0 := by
  decide

/-- **C2, amended.** For every Document with empty headings and links, the
Firecrawl analyzer returns normally with a non-empty issue list containing
exactly one `Missing H1` issue of severity `high` (but no `No Headings`
issue); the Puppeteer analyzer additionally emits `No Headings` with
severity `medium` alongside its `Missing H1`. -/
theorem C2_empty_document (d : ScrapedData)
    (hh : d.headings = []) (hl : d.links = []) :
    0 < (fcAnalyzeWebsiteIssues d).length ∧
    (fcAnalyzeWebsiteIssues d).countP
      (fun i => i.type == "Missing H1" && i.severity == "high") = 1 ∧
    (fcAnalyzeWebsiteIssues d).countP (fun i => i.type == "No Headings") = 0 ∧
    (ppAnalyzeWebsiteIssues d).countP
      (fun i => i.type == "No Headings" && i.severity == "medium") = 1 ∧
    (ppAnalyzeWebsiteIssues d).countP (fun i => i.type == "Missing H1") = 1 := by
  have hcnt : h1Count d.headings = 0 := by rw [hh]; rfl
  refine ⟨?_, ?_, ?_, ?_, ?_⟩ <;>
    rcases ht : d.title with _ | t <;>
      simp [fcAnalyzeWebsiteIssues, ppAnalyzeWebsiteIssues, ht, hh, hl, hcnt,
        h1Count, List.countP_append, countP_ite_nil, List.countP_cons,
        List.countP_nil, titleBlank]

/-- Witness for C2 at the empty Document. -/
theorem C2_witness :
    (ScrapedData.headings
      { url := "https://site.example/", title := none, headings := [],
        links := [], screenshot := none }) = [] ∧
    (fcAnalyzeWebsiteIssues
      { url := "https://site.example/", title := none, headings := [],
        links := [], screenshot := none }).countP
      (fun i => i.type == "Missing H1" && i.severity == "high") = 1 :=
  ⟨rfl, (C2_empty_document _ rfl rfl).2.1⟩

/-! ### C3 and C4: what the extractors drop and keep -/

theorem buildLinks_mem (base : String) :
    ∀ ms out, buildLinks base ms = some out →
      ∀ l ∈ out, startsWithHttp l.href.data = true ∧ ¬ l.text = "" := by
  intro ms
  induction ms with
  | nil =>
    intro out h l hl
    rw [buildLinks] at h
    cases h
    cases hl
  | cons m rest ih =>
    obtain ⟨href, inner⟩ := m
    intro out h l hl
    rw [buildLinks] at h
    split at h
    · cases h
    · rename_i resolved hr
      split at h
      · cases h
      · rename_i tail hb
        split at h
        · rename_i hc
          cases h
          rcases List.mem_cons.mp hl with hl | hl
          · subst hl
            simp only [Bool.and_eq_true] at hc
            refine ⟨hc.1, ?_⟩
            intro he
            have hnil : jsTrim (stripTags inner) = [] := congrArg String.data he
            simp [hnil] at hc
          · exact ih tail hb l hl
        · cases h
          exact ih _ hb l hl

/-- **C3, counterexample.** The Firecrawl extractor (`extractHeadings`, the
one the route's `scrapeWebsite` calls) drops `h1`-`h6` elements whose
visible text trims to the empty string: on `<h1></h1><h2>Hi</h2>` only the
`h2` entry is emitted. -/
theorem C3_counterexample :
    extractHeadings "<h1></h1><h2>Hi</h2>"
      = [{ tag := "h2", text := "Hi", level := 2 }] ∧
    (extractHeadings "<h1></h1><h2>Hi</h2>").countP (fun h => h.level == 1) = 0 := by
  exact ⟨by decide, by decide⟩

/-- **C3, amended.** The Firecrawl extractor emits a heading entry only for
`h1`-`h6` elements whose stripped text trims non-empty (empty-trimmed
headings are dropped, not kept for downstream detection); it is the
Puppeteer extraction path that emits an entry for every queried heading
element, empty-trimmed text included. -/
theorem C3_empty_headings (html : String) (h : Heading)
    (hm : h ∈ extractHeadings html) :
    ¬ h.text = "" ∧
    ∀ (els : List DomHeading), ∀ el ∈ els, ppHeadingOf el ∈ ppExtractHeadings els := by
  constructor
  · rw [extractHeadings] at hm
    rcases List.mem_filterMap.mp hm with ⟨p, _, hp⟩
    by_cases he : (jsTrim (stripTags p.2)).isEmpty
    · rw [if_pos he] at hp
      cases hp
    · rw [if_neg he] at hp
      cases hp
      intro hcon
      have : jsTrim (stripTags p.2) = [] := congrArg String.data hcon
      simp [this] at he
  · intro els el hel
    exact List.mem_map_of_mem ppHeadingOf hel

/-- Witness for C3: the non-empty heading of a concrete input, and the
Puppeteer mapping of a whitespace-only heading element. -/
theorem C3_witness :
    ({ tag := "h2", text := "Hi", level := 2 } : Heading)
        ∈ extractHeadings "<h2>Hi</h2>" ∧
    ¬ (({ tag := "h2", text := "Hi", level := 2 } : Heading).text = "") ∧
    ppHeadingOf { tagName := "H1", textContent := some " " }
      ∈ ppExtractHeadings [{ tagName := "H1", textContent := some " " }] :=
  ⟨by decide,
   (C3_empty_headings "<h2>Hi</h2>" { tag := "h2", text := "Hi", level := 2 }
     (by decide)).1,
   (C3_empty_headings "<h2>Hi</h2>" { tag := "h2", text := "Hi", level := 2 }
     (by decide)).2
     [{ tagName := "H1", textContent := some " " }]
     { tagName := "H1", textContent := some " " } (by decide)⟩

/-- **C4, counterexample.** An anchor with a non-empty href and empty
visible text is dropped by the Firecrawl extractor -- the output contains
no entry at all, so no entry whose text falls back to the href. -/
theorem C4_counterexample :
    extractLinks "<a href=\"https://x.example/\"></a>" "https://base.example"
      = some [] := by
  decide

/-- **C4, amended.** The Firecrawl extractor (the one the route's
`scrapeWebsite` calls) never emits a link with empty text: anchors whose
visible text trims to the empty string are dropped.  The fallback to the
href string exists only in the Puppeteer extraction path, where an anchor
kept by the `http` filter whose text content trims empty yields an entry
with `text = href`. -/
theorem C4_link_text (html base : String) (out : List LinkHT)
    (hout : extractLinks html base = some out) :
    (∀ l ∈ out, ¬ l.text = "") ∧
    ∀ (els : List DomAnchor), ∀ el ∈ els,
      (el.href != "" && startsWithHttp el.href.data) = true →
      trimS (el.textContent.getD "") = "" →
      ({ href := el.href, text := el.href } : LinkHT) ∈ ppExtractLinks els := by
  constructor
  · intro l hl
    exact (buildLinks_mem base _ out hout l hl).2
  · intro els el hel hkeep htrim
    have hmem : el ∈ els.filter
        (fun el => el.href != "" && startsWithHttp el.href.data) :=
      List.mem_filter.mpr ⟨hel, hkeep⟩
    have htext : ppLinkText el = el.href := by
      rw [ppLinkText, if_pos htrim]
    rw [ppExtractLinks]
    have hmm := List.mem_map_of_mem
      (fun el => ({ href := el.href, text := ppLinkText el } : LinkHT)) hmem
    dsimp only at hmm
    rw [htext] at hmm
    exact hmm

/-- Witness for C4: a concrete extraction with one non-empty-text link,
and the Puppeteer fallback on a whitespace-text anchor. -/
theorem C4_witness :
    extractLinks "<a href=\"https://x.example/\">t</a>" "https://base.example"
      = some [{ href := "https://x.example/", text := "t" }] ∧
    ¬ (({ href := "https://x.example/", text := "t" } : LinkHT).text = "") ∧
    ({ href := "https://pp.example/", text := "https://pp.example/" } : LinkHT)
      ∈ ppExtractLinks [{ href := "https://pp.example/", textContent := some " " }] :=
  ⟨by decide,
   (C4_link_text "<a href=\"https://x.example/\">t</a>" "https://base.example"
      [{ href := "https://x.example/", text := "t" }] (by decide)).1
      { href := "https://x.example/", text := "t" } (by decide),
   (C4_link_text "<a href=\"https://x.example/\">t</a>" "https://base.example"
      [{ href := "https://x.example/", text := "t" }] (by decide)).2
      [{ href := "https://pp.example/", textContent := some " " }]
      { href := "https://pp.example/", textContent := some " " }
      (by decide) (by decide) (by decide)⟩

/-! ### C5: the href invariant of the extractor -/

/-- **C5, counterexample.** The extractor's scheme filter is the string
test `href.startsWith('http')`: a relative href `httpfoo` passes it and is
emitted verbatim, although it is no absolute `http`/`https` URL; and a
`./` href is resolved by concatenation to the full base pathname
(`https://ex.com/dir/pagea`), not by standard URL resolution (which gives
`https://ex.com/dir/a`). -/
theorem C5_counterexample :
    extractLinks "<a href=\"httpfoo\">x</a>" "https://ex.com"
      = some [{ href := "httpfoo", text := "x" }] ∧
    isHttpAbsolute "httpfoo" = false ∧
    extractLinks "<a href=\"./a\">x</a>" "https://ex.com/dir/page"
      = some [{ href := "https://ex.com/dir/pagea", text := "x" }] ∧
    ¬ ("https://ex.com/dir/pagea" : String) = "https://ex.com/dir/a" := by
  exact ⟨by decide, by decide, by decide, by decide⟩

/-- **C5, amended.** Every href the Firecrawl extractor emits starts with
the four characters `http` (hrefs beginning with `/` are rebuilt from the
base protocol and host, `./` hrefs are appended to the base pathname, all
others are kept verbatim when they pass `startsWith('http')` -- which
drops `mailto:`/`javascript:` but admits any string starting with
`http`). -/
theorem C5_href_http (html base : String) (out : List LinkHT)
    (hout : extractLinks html base = some out) :
    ∀ l ∈ out, startsWithHttp l.href.data = true := by
  intro l hl
  exact (buildLinks_mem base _ out hout l hl).1

/-- Witness for C5 at a concrete extraction. -/
theorem C5_witness :
    extractLinks "<a href=\"/p\">go</a>" "https://wit.example"
      = some [{ href := "https://wit.example/p", text := "go" }] ∧
    startsWithHttp ("https://wit.example/p" : String).data = true :=
  ⟨by decide,
   C5_href_http "<a href=\"/p\">go</a>" "https://wit.example"
     [{ href := "https://wit.example/p", text := "go" }] (by decide)
     { href := "https://wit.example/p", text := "go" } (by decide)⟩

/-! ### C6: the link prober -/

/-- **C6, counterexample.** The prober marks a link broken whenever the
response is not `ok` (status outside 200..299), not only on error statuses
`≥ 400`: a 304 response yields `isBroken = true` although `304 < 400` and
the request did not fail. -/
theorem C6_counterexample :
    checkBrokenLinks (fun _ => FetchOutcome.resp 304) ["https://a.example/"]
      = [("https://a.example/", true)] ∧
    ¬ 400 ≤ 304 := by
  exact ⟨by decide, by decide⟩

/-- **C6, amended.** `checkBrokenLinks` returns exactly one outcome per
input URL, in input order, each computed independently from that link's
own fetch outcome (so one link's failure cannot abort its siblings); and
`isBroken = true` exactly when the fetch throws or the response status is
outside 200..299 (`!response.ok`) -- not only when it is `≥ 400`. -/
theorem C6_prober (env : String → FetchOutcome) (links : List String) :
    checkBrokenLinks env links = links.map (probeOne env) ∧
    ∀ url, (probeOne env url).1 = url ∧
      ((probeOne env url).2 = true ↔
        env url = FetchOutcome.failed ∨
        ∃ s, env url = FetchOutcome.resp s ∧ (s < 200 ∨ 299 < s)) := by
  refine ⟨?_, fun url => ?_⟩
  · rw [checkBrokenLinks]
    exact checkBrokenLinksAux_eq env links.length links le_rfl
  · rcases henv : env url with s | _
    · constructor
      · simp [probeOne, henv]
      · simp only [probeOne, henv, FetchOutcome.resp.injEq, reduceCtorEq,
          false_or]
        simp only [jsOk, Bool.not_eq_true', Bool.and_eq_false_iff,
          decide_eq_false_iff_not, not_le]
        constructor
        · intro h
          exact ⟨s, rfl, by omega⟩
        · rintro ⟨s', hs', h⟩
          subst hs'
          omega
    · simp [probeOne, henv]

/-! ### C10: the heuristic readability score -/

/-- **C10, counterexample.** On a whitespace-only text the word list is
empty while the sentence list is not, so the score formula divides zero by
zero: the JS result is NaN (here `none`), not a number `≥ 50`; the level
of that NaN score is Hard. -/
theorem C10_counterexample :
    calculateReadabilityScore " " = none ∧
    sentencesOf " " = [" "] ∧
    wordsOf " " = [] ∧
    readabilityLevelOf (calculateReadabilityScore " ") = "Hard" := by
  exact ⟨by decide, by decide, by decide, by decide⟩

/-- **C10, amended.** Whenever the heuristic readability score is a number
it is at least 50: exactly 50 when the text has no sentence chunk, and at
least 60 when it has both a sentence chunk and a word; on a text with a
sentence chunk but no words (whitespace-only) the formula yields NaN
(`none`) instead of a number.  Consequently the heuristic strategy never
returns readability level `Easy` (NaN maps to Hard). -/
theorem C10_readability :
    (∀ t q, calculateReadabilityScore t = some q → 50 ≤ q) ∧
    (∀ t, sentencesOf t = [] → calculateReadabilityScore t = some 50) ∧
    (∀ t, ¬ sentencesOf t = [] → ¬ wordsOf t = [] →
      ∃ q, calculateReadabilityScore t = some q ∧ 60 ≤ q) ∧
    (∀ t, ¬ sentencesOf t = [] → wordsOf t = [] →
      calculateReadabilityScore t = none) ∧
    (∀ t, ¬ readabilityLevelOf (calculateReadabilityScore t) = "Easy") := by
  have h50 : ∀ t, sentencesOf t = [] → calculateReadabilityScore t = some 50 := by
    intro t hs
    simp [calculateReadabilityScore, hs]
  have hnan : ∀ t, ¬ sentencesOf t = [] → wordsOf t = [] →
      calculateReadabilityScore t = none := by
    intro t hs hw
    have hs' : (sentencesOf t).isEmpty = false := by rwa [List.isEmpty_eq_false]
    simp [calculateReadabilityScore, hs', hw]
  have h60 : ∀ t, ¬ sentencesOf t = [] → ¬ wordsOf t = [] →
      ∃ q, calculateReadabilityScore t = some q ∧ 60 ≤ q := by
    intro t hs hw
    have hs' : (sentencesOf t).isEmpty = false := by rwa [List.isEmpty_eq_false]
    have hw' : (wordsOf t).isEmpty = false := by rwa [List.isEmpty_eq_false]
    refine ⟨max 0 (min 100 (60 + ((wordsOf t).length : ℚ) / ((sentencesOf t).length : ℚ) * 2
          + (((wordsOf t).countP fun w => 6 < w.length : ℕ) : ℚ)
            / ((wordsOf t).length : ℚ) * 100 / 2)),
      by simp [calculateReadabilityScore, hs', hw'], ?_⟩
    have ha : (0 : ℚ) ≤ ((wordsOf t).length : ℚ) / ((sentencesOf t).length : ℚ) := by
      positivity
    have hp : (0 : ℚ) ≤
        (((wordsOf t).countP fun w => 6 < w.length : ℕ) : ℚ)
          / ((wordsOf t).length : ℚ) * 100 := by
      positivity
    have hx : (60 : ℚ) ≤
        60 + ((wordsOf t).length : ℚ) / ((sentencesOf t).length : ℚ) * 2
          + (((wordsOf t).countP fun w => 6 < w.length : ℕ) : ℚ)
            / ((wordsOf t).length : ℚ) * 100 / 2 := by
      linarith
    calc (60 : ℚ) ≤ min 100 (60 + ((wordsOf t).length : ℚ) / ((sentencesOf t).length : ℚ) * 2
          + (((wordsOf t).countP fun w => 6 < w.length : ℕ) : ℚ)
            / ((wordsOf t).length : ℚ) * 100 / 2) := le_min (by norm_num) hx
      _ ≤ max 0 (min 100 (60 + ((wordsOf t).length : ℚ) / ((sentencesOf t).length : ℚ) * 2
          + (((wordsOf t).countP fun w => 6 < w.length : ℕ) : ℚ)
            / ((wordsOf t).length : ℚ) * 100 / 2)) := le_max_right 0 _
  have hall : ∀ t q, calculateReadabilityScore t = some q → 50 ≤ q := by
    intro t q h
    by_cases hs : sentencesOf t = []
    · rw [h50 t hs] at h
      cases h
      norm_num
    · by_cases hw : wordsOf t = []
      · rw [hnan t hs hw] at h
        cases h
      · obtain ⟨q', hq', hge⟩ := h60 t hs hw
        rw [hq'] at h
        cases h
        linarith
  refine ⟨hall, h50, h60, hnan, fun t => ?_⟩
  rcases hsc : calculateReadabilityScore t with _ | q
  · simp [readabilityLevelOf]
  · have h50q := hall t q hsc
    simp only [readabilityLevelOf, getReadabilityLevel]
    split_ifs with h1 h2
    · linarith
    · simp
    · simp

/-- Witness for C10: the no-sentence branch at a punctuation-only text and
the at-least-60 branch at a short sentence. -/
theorem C10_witness :
    calculateReadabilityScore "..." = some 50 ∧
    (∃ q, calculateReadabilityScore "hi there." = some q ∧ 60 ≤ q) ∧
    ¬ readabilityLevelOf (calculateReadabilityScore " ") = "Easy" :=
  ⟨C10_readability.2.1 "..." (by decide),
   C10_readability.2.2.1 "hi there." (by decide) (by decide),
   C10_readability.2.2.2.2 " "⟩

end Scraper
